import Mathlib

/-!
Shallow embedding of the five singleton variants of the repository
(src/creational/singleton/src/singleton1.rs … singleton5.rs).

Each variant owns process-global state (a `static`); we embed that state as
an explicit value threaded through the operations:

* Variant A (`Singleton1`): `static mut INSTANCE1: Option<Box<Singleton1>>`
  becomes `Option Singleton1`; `get_instance` performs the lazy fill and
  then `as_mut().unwrap()`, which we model by returning the post-state
  together with the `Option` the unwrap is applied to.
* Variant B (`Singleton2`): the `lazy_static` cell `INSTANCE2 : Mutex<Singleton2>`
  becomes a record holding the forced-or-not payload plus the mutex's
  poisoned flag; `lock().unwrap()` becomes an `Except` whose error branch is
  the poisoned case.
* Variant C (`Singleton3`): the `OnceLock` becomes `Option Singleton3` with
  `get_or_init` as one atomic step (the guarantee the primitive provides).
* Variant D (`Singleton4`): an eager `static` value.
* Variant E (`Singleton5`): the pair `ONCE : Once` / `INSTANCE5 : *mut Singleton5`
  becomes a record of the once-flag and an `Option Singleton5` (the null
  pointer is `none`); `Once::call_once` is one atomic step.

Mutation through a returned `&'static mut` reference aliases the global, so
it is embedded as an update of the threaded state.  `println!` output is
embedded as a list of emitted lines.
-/

/-! ## Variant A — singleton1.rs -/

structure Singleton1 where
  data : String
deriving DecidableEq

/-- The body of `Singleton1::get_instance`: fill `INSTANCE1` when it is
`none`, then take `INSTANCE1.as_mut()`.  First component: the global after
the call; second component: the `Option` that `.unwrap()` is applied to
(it aliases the global). -/
def Singleton1.get_instance (INSTANCE1 : Option Singleton1) :
    Option Singleton1 × Option Singleton1 :=
  let INSTANCE1' :=
    if INSTANCE1.isNone then
      some { data := "Singleton1 instance" }
    else INSTANCE1
  (INSTANCE1', INSTANCE1')

/-- `Singleton1::set_data`. -/
def Singleton1.set_data (self : Singleton1) (d : String) : Singleton1 :=
  { self with data := d }

/-- `Singleton1::get_data`. -/
def Singleton1.get_data (self : Singleton1) : String :=
  self.data

/-! ## Variant B — singleton2.rs -/

structure Singleton2 where
  data : String
deriving DecidableEq

/-- The value the `lazy_static` initializer builds inside the mutex. -/
def INSTANCE2_value : Singleton2 :=
  { data := "Singleton2 instance" }

/-- The global `INSTANCE2 : Mutex<Singleton2>` together with its
`lazy_static` cell: `forced` is the payload once the cell has been forced,
`poisoned` is the mutex's poison flag (set only when a holder panics). -/
structure Lazy2 where
  forced : Option Singleton2
  poisoned : Bool
deriving DecidableEq

/-- State of the globals at process start: cell not yet forced, mutex not
poisoned. -/
def init2 : Lazy2 :=
  { forced := none, poisoned := false }

/-- Forcing the `lazy_static` cell: run the initializer on first access,
afterwards return the stored payload. -/
def force2 (st : Lazy2) : Lazy2 × Singleton2 :=
  match st.forced with
  | some s => (st, s)
  | none => ({ st with forced := some INSTANCE2_value }, INSTANCE2_value)

/-- The possible error of `Mutex::lock`. -/
inductive PoisonError where
  | poisoned
deriving DecidableEq

/-- `INSTANCE2.lock()`: force the cell, then acquire the mutex; returns
`Err` exactly when the mutex is poisoned. -/
def lock2 (st : Lazy2) : Except PoisonError (Lazy2 × Singleton2) :=
  let p := force2 st
  if p.fst.poisoned then .error .poisoned else .ok p

/-- `Singleton2::get_instance`: `INSTANCE2.lock().unwrap()`; the `.unwrap()`
panics on the error branch, so the embedded function is `lock2` itself and
reachability of the error branch is what the theorems settle. -/
def Singleton2.get_instance (st : Lazy2) : Except PoisonError (Lazy2 × Singleton2) :=
  lock2 st

/-- `Singleton2::set_data`. -/
def Singleton2.set_data (self : Singleton2) (d : String) : Singleton2 :=
  { self with data := d }

/-- `Singleton2::get_data`. -/
def Singleton2.get_data (self : Singleton2) : String :=
  self.data

/-- The public call sequences on Variant B: each call acquires the guard via
`get_instance`, uses it, and releases it. -/
inductive Op2 where
  | getInstance
  | setData (d : String)
  | getData
deriving DecidableEq

/-- One public call on Variant B.  A mutation through the guard writes the
payload behind the mutex, i.e. updates `forced`. -/
def step2 (st : Lazy2) : Op2 → Except PoisonError Lazy2
  | .getInstance => (lock2 st).map (fun p => p.fst)
  | .setData d => (lock2 st).map (fun p => { p.fst with forced := some (p.snd.set_data d) })
  | .getData => (lock2 st).map (fun p => p.fst)

/-- A sequence of public calls on Variant B; any failing `lock().unwrap()`
aborts the run with its error. -/
def run2 (st : Lazy2) : List Op2 → Except PoisonError Lazy2
  | [] => .ok st
  | op :: ops => (step2 st op).bind (fun st' => run2 st' ops)

/-! ## Variant C — singleton3.rs -/

structure Singleton3 where
  data : String
deriving DecidableEq

/-- `Singleton3::get_instance`: `INSTANCE3.get_or_init(..)` on the
`OnceLock`, one atomic step.  First component: the cell after the call;
second component: the returned shared reference's target. -/
def Singleton3.get_instance (INSTANCE3 : Option Singleton3) :
    Option Singleton3 × Singleton3 :=
  match INSTANCE3 with
  | some s => (some s, s)
  | none =>
    let s : Singleton3 := { data := "Singleton3 instance" }
    (some s, s)

/-- `Singleton3::get_data`. -/
def Singleton3.get_data (self : Singleton3) : String :=
  self.data

/-- The public call sequences on Variant C.  The Rust type exposes no
setter, so there is no mutating constructor here. -/
inductive Op3 where
  | getInstance
  | getData
deriving DecidableEq

/-- One public call on Variant C; `get_data` reads through a shared
reference and cannot change the cell. -/
def step3 (st : Option Singleton3) : Op3 → Option Singleton3
  | .getInstance => (Singleton3.get_instance st).fst
  | .getData => st

/-- A sequence of public calls on Variant C. -/
def run3 (st : Option Singleton3) : List Op3 → Option Singleton3
  | [] => st
  | op :: ops => run3 (step3 st op) ops

/-- The cell right after the first construction. -/
def constructed3 : Option Singleton3 :=
  (Singleton3.get_instance none).fst

/-! ## Variant D — singleton4.rs -/

structure Singleton4 where
  data : String
deriving DecidableEq

/-- `static INSTANCE4: Singleton4 = Singleton4 { data: String::new() }`. -/
def INSTANCE4 : Singleton4 :=
  { data := "" }

/-- `Singleton4::get_instance`: `&INSTANCE4`. -/
def Singleton4.get_instance : Singleton4 :=
  INSTANCE4

/-- `Singleton4::init`: discards its argument (`let _ = data;`) and returns
`&INSTANCE4` unchanged. -/
def Singleton4.init (data : String) : Singleton4 :=
  INSTANCE4

/-- `Singleton4::get_data`. -/
def Singleton4.get_data (self : Singleton4) : String :=
  self.data

/-! ## Variant E — singleton5.rs -/

structure Singleton5 where
  data : String
deriving DecidableEq

/-- The globals of Variant E: the `ONCE : Once` flag and
`INSTANCE5 : *mut Singleton5`, where `none` embeds the null pointer and
`some s` a valid allocation holding `s`. -/
structure St5 where
  ONCE_completed : Bool
  INSTANCE5 : Option Singleton5
deriving DecidableEq

/-- State of the globals at process start: `Once::new()` not completed,
`INSTANCE5 = ptr::null_mut()`. -/
def init5 : St5 :=
  { ONCE_completed := false, INSTANCE5 := none }

/-- `ONCE.call_once(..)` with the closure of `Singleton5::get_instance`:
one atomic step that runs the closure exactly on the first call. -/
def call_once5 (st : St5) : St5 :=
  if st.ONCE_completed then st
  else
    { ONCE_completed := true
      INSTANCE5 := some { data := "Singleton5 instance" } }

/-- `Singleton5::get_instance`: `call_once`, then `&mut *INSTANCE5`.
First component: the globals after the call; second component: the pointer
being dereferenced (`none` would be the null dereference). -/
def Singleton5.get_instance (st : St5) : St5 × Option Singleton5 :=
  let st' := call_once5 st
  (st', st'.INSTANCE5)

/-- `Singleton5::set_data`. -/
def Singleton5.set_data (self : Singleton5) (d : String) : Singleton5 :=
  { self with data := d }

/-- `Singleton5::get_data`. -/
def Singleton5.get_data (self : Singleton5) : String :=
  self.data

/-- `println!` of one line, embedded as the emitted output. -/
def println (line : String) : List String :=
  [line]

/-- The body of `<Singleton5 as Drop>::drop`. -/
def Singleton5.drop (self : Singleton5) : List String :=
  println "Singleton5 is being dropped"

/-- Modelled from the spec: the explicit teardown the repository itself
never performs — "explicitly released (with an observable teardown side
effect) only if the owning process performs that release", i.e.
`drop(Box::from_raw(INSTANCE5))`: run the `Drop` hook and reclaim the
allocation.  There is no such entry point under src/. -/
def destroy5 (st : St5) : St5 × List String :=
  match st.INSTANCE5 with
  | some s => ({ st with INSTANCE5 := none }, s.drop)
  | none => (st, [])

/-- The public call sequences on Variant E (`get_instance`, `set_data`,
`get_data`); a mutation through the returned reference writes the
allocation `INSTANCE5` points to. -/
inductive Op5 where
  | getInstance
  | setData (d : String)
  | getData
deriving DecidableEq

/-- One public call on Variant E, together with the lines it prints. -/
def step5 (st : St5) : Op5 → St5 × List String
  | .getInstance => (call_once5 st, [])
  | .setData d =>
    ({ st with INSTANCE5 := st.INSTANCE5.map (fun s => s.set_data d) }, [])
  | .getData => (st, [])

/-- A sequence of public calls on Variant E, accumulating printed lines. -/
def run5 (st : St5) : List Op5 → St5 × List String
  | [] => (st, [])
  | op :: ops =>
    let p := step5 st op
    let q := run5 p.fst ops
    (q.fst, p.snd ++ q.snd)

/-! ## Instrumented once-primitives for the exactly-once property -/

/-- Variant C's `OnceLock` instrumented with a counter that the initializer
closure bumps, to observe how often the initializer runs. -/
structure Cell3 where
  cell : Option Singleton3
  initCount : Nat
deriving DecidableEq

/-- `get_or_init` on the instrumented cell: the closure (which counts its
own executions) runs only when the cell is empty. -/
def get_or_init_counting (st : Cell3) : Cell3 × Singleton3 :=
  match st.cell with
  | some s => (st, s)
  | none =>
    let s : Singleton3 := { data := "Singleton3 instance" }
    ({ cell := some s, initCount := st.initCount + 1 }, s)

/-- `n` threads each calling Variant C's `get_instance` once.  Since
`get_or_init` is one atomic step of identical threads, every interleaving
is this sequential iteration; the returned list collects what each thread
observes. -/
def threads3 : Nat → Cell3 → Cell3 × List Singleton3
  | 0, st => (st, [])
  | n + 1, st =>
    let p := get_or_init_counting st
    let q := threads3 n p.fst
    (q.fst, p.snd :: q.snd)

/-- Variant E's globals instrumented with a counter bumped by the
`call_once` closure. -/
structure Once5 where
  completed : Bool
  INSTANCE5 : Option Singleton5
  initCount : Nat
deriving DecidableEq

/-- `ONCE.call_once` on the instrumented state. -/
def call_once_counting (st : Once5) : Once5 :=
  if st.completed then st
  else
    { completed := true
      INSTANCE5 := some { data := "Singleton5 instance" }
      initCount := st.initCount + 1 }

/-- `n` threads each calling Variant E's `get_instance` once; each observes
the pointer it then dereferences. -/
def threads5 : Nat → Once5 → Once5 × List (Option Singleton5)
  | 0, st => (st, [])
  | n + 1, st =>
    let st' := call_once_counting st
    let q := threads5 n st'
    (q.fst, st'.INSTANCE5 :: q.snd)

/-- The invariant of Variant E's globals: once `ONCE` has completed, the
pointer is non-null. -/
def inv5 (st : St5) : Prop :=
  st.ONCE_completed = true → st.INSTANCE5.isSome = true

/-! ## Helper lemmas -/

theorem force2_fst_poisoned (st : Lazy2) : (force2 st).fst.poisoned = st.poisoned := by
  cases h : st.forced <;> simp [force2, h]

theorem lock2_eq_ok (st : Lazy2) (h : st.poisoned = false) :
    lock2 st = .ok (force2 st) := by
  simp [lock2, force2_fst_poisoned, h]

theorem step2_ok (st : Lazy2) (op : Op2) (h : st.poisoned = false) :
    ∃ st', step2 st op = .ok st' ∧ st'.poisoned = false := by
  cases op <;>
    simp [step2, lock2_eq_ok st h, Except.map, force2_fst_poisoned, h]

theorem run2_ok (ops : List Op2) (st : Lazy2) (h : st.poisoned = false) :
    ∃ st', run2 st ops = .ok st' ∧ st'.poisoned = false := by
  induction ops generalizing st with
  | nil => exact ⟨st, rfl, h⟩
  | cons op ops ih =>
    obtain ⟨st1, hst1, hp1⟩ := step2_ok st op h
    obtain ⟨st2, hst2, hp2⟩ := ih st1 hp1
    exact ⟨st2, by simp [run2, hst1, Except.bind, hst2], hp2⟩

theorem step3_stable (s : Singleton3) (op : Op3) : step3 (some s) op = some s := by
  cases op <;> rfl

theorem run3_stable (ops : List Op3) (s : Singleton3) : run3 (some s) ops = some s := by
  induction ops with
  | nil => rfl
  | cons op ops ih => simp [run3, step3_stable, ih]

theorem call_once5_completed (st : St5) : (call_once5 st).ONCE_completed = true := by
  by_cases h : st.ONCE_completed <;> simp [call_once5, h]

theorem call_once5_isSome (st : St5) (h : inv5 st) :
    ((call_once5 st).INSTANCE5).isSome = true := by
  by_cases hc : st.ONCE_completed <;> simp [call_once5, hc]
  exact h hc

theorem step5_inv (st : St5) (op : Op5) (h : inv5 st) : inv5 (step5 st op).fst := by
  cases op with
  | getInstance =>
    intro _
    exact call_once5_isSome st h
  | setData d =>
    intro hc
    have := h hc
    simp [step5]
    simpa [Option.isSome_map] using this
  | getData => exact h

theorem run5_inv (ops : List Op5) (st : St5) (h : inv5 st) : inv5 (run5 st ops).fst := by
  induction ops generalizing st with
  | nil => exact h
  | cons op ops ih => exact ih (step5 st op).fst (step5_inv st op h)

theorem step5_keeps_isSome (st : St5) (op : Op5) (h : st.INSTANCE5.isSome = true) :
    ((step5 st op).fst.INSTANCE5).isSome = true := by
  cases op with
  | getInstance =>
    by_cases hc : st.ONCE_completed <;> simp [step5, call_once5, hc, h]
  | setData d => simpa [step5, Option.isSome_map] using h
  | getData => exact h

theorem run5_keeps_isSome (ops : List Op5) (st : St5) (h : st.INSTANCE5.isSome = true) :
    ((run5 st ops).fst.INSTANCE5).isSome = true := by
  induction ops generalizing st with
  | nil => exact h
  | cons op ops ih => exact ih (step5 st op).fst (step5_keeps_isSome st op h)

theorem step5_no_output (st : St5) (op : Op5) : (step5 st op).snd = [] := by
  cases op <;> rfl

theorem run5_no_output (ops : List Op5) (st : St5) : (run5 st ops).snd = [] := by
  induction ops generalizing st with
  | nil => rfl
  | cons op ops ih => simp [run5, step5_no_output, ih]

theorem threads3_stable (n : Nat) (s : Singleton3) (c : Nat) :
    threads3 n { cell := some s, initCount := c } =
      ({ cell := some s, initCount := c }, List.replicate n s) := by
  induction n with
  | zero => rfl
  | succ n ih => simp [threads3, get_or_init_counting, ih, List.replicate]

theorem threads5_stable (n : Nat) (s : Singleton5) (c : Nat) :
    threads5 n { completed := true, INSTANCE5 := some s, initCount := c } =
      ({ completed := true, INSTANCE5 := some s, initCount := c },
        List.replicate n (some s)) := by
  induction n with
  | zero => rfl
  | succ n ih => simp [threads5, call_once_counting, ih, List.replicate]

/-! ## The claims -/

/-- C1: for every input string `s`, Variant D's `init(s)` returns a
reference to the already-existing shared instance `INSTANCE4` and does not
mutate it: after any call `init(s)`, `get_data()` on the shared instance
still returns `""`. -/
theorem C1_variantD_init_noop (s : String) :
    Singleton4.init s = INSTANCE4 ∧
    Singleton4.init s = Singleton4.get_instance ∧
    Singleton4.get_data (Singleton4.init s) = "" ∧
    Singleton4.get_data INSTANCE4 = "" :=
  ⟨rfl, rfl, rfl, rfl⟩

/-- C2: immediately after the first construction of each variant's instance
and before any mutation, `get_data()` returns `"Singleton1 instance"`,
`"Singleton2 instance"`, `"Singleton3 instance"`, `""` and
`"Singleton5 instance"` for Variants A–E respectively. -/
theorem C2_default_values :
    (Singleton1.get_instance none).snd.map Singleton1.get_data
        = some "Singleton1 instance" ∧
    (Singleton2.get_instance init2).map (fun p => Singleton2.get_data p.snd)
        = .ok "Singleton2 instance" ∧
    Singleton3.get_data (Singleton3.get_instance none).snd = "Singleton3 instance" ∧
    Singleton4.get_data Singleton4.get_instance = "" ∧
    (Singleton5.get_instance init5).snd.map Singleton5.get_data
        = some "Singleton5 instance" :=
  ⟨rfl, rfl, rfl, rfl, rfl⟩

/-- C3: for every variant, two consecutive `get_instance()` calls from the
same thread with no intervening teardown yield the same underlying storage:
a mutation through the first call's reference or guard is visible through
the second call's, and the second call does not re-run the initializer (the
global state is returned unchanged by the second call). -/
theorem C3_identity :
    (∀ (st : Option Singleton1) (d : String),
      Singleton1.get_instance
          ((Singleton1.get_instance st).fst.map (fun s => s.set_data d)) =
        ((Singleton1.get_instance st).fst.map (fun s => s.set_data d),
          (Singleton1.get_instance st).fst.map (fun s => s.set_data d)) ∧
      ((Singleton1.get_instance st).fst.map (fun s => s.set_data d)).map
          Singleton1.get_data = some d) ∧
    (∀ (st : Lazy2) (d : String), st.poisoned = false →
      Singleton2.get_instance st = .ok (force2 st) ∧
      Singleton2.get_instance
          { (force2 st).fst with
            forced := some (Singleton2.set_data (force2 st).snd d) } =
        .ok ({ (force2 st).fst with
                forced := some (Singleton2.set_data (force2 st).snd d) },
              Singleton2.set_data (force2 st).snd d) ∧
      Singleton2.get_data (Singleton2.set_data (force2 st).snd d) = d) ∧
    (∀ (st : Option Singleton3),
      Singleton3.get_instance (Singleton3.get_instance st).fst =
        ((Singleton3.get_instance st).fst, (Singleton3.get_instance st).snd)) ∧
    (Singleton4.get_instance = INSTANCE4) ∧
    (∀ (st : St5) (s : Singleton5) (d : String),
      (call_once5 st).INSTANCE5 = some s →
      Singleton5.get_instance
          { call_once5 st with INSTANCE5 := some (Singleton5.set_data s d) } =
        ({ call_once5 st with INSTANCE5 := some (Singleton5.set_data s d) },
          some (Singleton5.set_data s d)) ∧
      Singleton5.get_data (Singleton5.set_data s d) = d) := by
  refine ⟨?_, ?_, ?_, rfl, ?_⟩
  · intro st d
    cases st <;>
      simp [Singleton1.get_instance, Singleton1.set_data, Singleton1.get_data]
  · intro st d h
    have hforced : ((force2 st).fst.poisoned) = false := by
      rw [force2_fst_poisoned]; exact h
    refine ⟨lock2_eq_ok st h, ?_, rfl⟩
    have h2 : ({ (force2 st).fst with
        forced := some (Singleton2.set_data (force2 st).snd d) } : Lazy2).poisoned
          = false := hforced
    rw [Singleton2.get_instance, lock2_eq_ok _ h2]
    simp [force2]
  · intro st
    cases st <;> simp [Singleton3.get_instance]
  · intro st s d _
    refine ⟨?_, rfl⟩
    by_cases h : st.ONCE_completed <;>
      simp [Singleton5.get_instance, call_once5, h]

/-- Witness for C3: the hypotheses hold and the conclusions follow at the
concrete start states with mutation value `"x"`. -/
theorem C3_identity_witness :
    init2.poisoned = false ∧
    (call_once5 init5).INSTANCE5 = some { data := "Singleton5 instance" } ∧
    (Singleton2.get_instance init2 = .ok (force2 init2) ∧
      Singleton2.get_instance
          { (force2 init2).fst with
            forced := some (Singleton2.set_data (force2 init2).snd "x") } =
        .ok ({ (force2 init2).fst with
                forced := some (Singleton2.set_data (force2 init2).snd "x") },
              Singleton2.set_data (force2 init2).snd "x") ∧
      Singleton2.get_data (Singleton2.set_data (force2 init2).snd "x") = "x") ∧
    (Singleton5.get_instance
        { call_once5 init5 with
          INSTANCE5 := some (Singleton5.set_data { data := "Singleton5 instance" } "x") } =
      ({ call_once5 init5 with
          INSTANCE5 := some (Singleton5.set_data { data := "Singleton5 instance" } "x") },
        some (Singleton5.set_data { data := "Singleton5 instance" } "x")) ∧
      Singleton5.get_data
        (Singleton5.set_data { data := "Singleton5 instance" } "x") = "x") :=
  ⟨rfl, rfl, C3_identity.2.1 init2 "x" rfl,
    C3_identity.2.2.2.2 init5 { data := "Singleton5 instance" } "x" rfl⟩

/-- C4: for Variants A, B and E, after `set_data("Updated data")` on the
shared instance, a subsequent `get_instance()` (guard reacquisition for B)
followed by `get_data()` returns `"Updated data"`. -/
theorem C4_mutation_visibility :
    (∀ st : Option Singleton1,
      (Singleton1.get_instance
          ((Singleton1.get_instance st).fst.map
            (fun s => s.set_data "Updated data"))).snd.map Singleton1.get_data
        = some "Updated data") ∧
    ((Singleton2.get_instance
        { (force2 init2).fst with
          forced := some (Singleton2.set_data (force2 init2).snd "Updated data") }).map
        (fun p => Singleton2.get_data p.snd) = .ok "Updated data") ∧
    ((Singleton5.get_instance
        { (Singleton5.get_instance init5).fst with
          INSTANCE5 := (Singleton5.get_instance init5).fst.INSTANCE5.map
            (fun s => s.set_data "Updated data") }).snd.map Singleton5.get_data
      = some "Updated data") := by
  refine ⟨?_, rfl, rfl⟩
  intro st
  cases st <;>
    simp [Singleton1.get_instance, Singleton1.set_data, Singleton1.get_data]

/-- C5: Variant C is immutable after construction: every sequence of its
public operations (`get_instance`, `get_data` — the `Op3` type has no
setter, mirroring the absence of one in the source) leaves the cell
unchanged, and `get_data()` always returns `"Singleton3 instance"`. -/
theorem C5_variantC_immutable (ops : List Op3) :
    run3 constructed3 ops = constructed3 ∧
    Singleton3.get_data (Singleton3.get_instance (run3 constructed3 ops)).snd
      = "Singleton3 instance" := by
  have h : run3 constructed3 ops = constructed3 := run3_stable ops _
  exact ⟨h, by rw [h]; rfl⟩

/-- C6: no public operation returns a recoverable error value: every
sequence of sequential calls on Variant B succeeds, i.e. the error branch
of the `lock().unwrap()` inside `Singleton2::get_instance` is unreachable
(the remaining variants' operations are embedded as total functions — the
source offers them no error value to return). -/
theorem C6_no_errors (ops : List Op2) :
    ∃ st', run2 init2 ops = .ok st' := by
  obtain ⟨st', h, _⟩ := run2_ok ops init2 rfl
  exact ⟨st', h⟩

/-- C7: for Variants C and E, when `n` concurrent threads each call
`get_instance()` for the first time, the initializer runs exactly once
across all threads (the instrumenting counter ends at 1), and every thread
observes the identical fully-initialized instance. -/
theorem C7_exactly_once (n : Nat) (h : 0 < n) :
    (threads3 n { cell := none, initCount := 0 }).fst.initCount = 1 ∧
    (threads3 n { cell := none, initCount := 0 }).snd
      = List.replicate n { data := "Singleton3 instance" } ∧
    (threads5 n { completed := false, INSTANCE5 := none, initCount := 0 }).fst.initCount = 1 ∧
    (threads5 n { completed := false, INSTANCE5 := none, initCount := 0 }).snd
      = List.replicate n (some { data := "Singleton5 instance" }) := by
  obtain ⟨m, rfl⟩ := Nat.exists_eq_add_of_lt h
  simp only [Nat.zero_add]
  refine ⟨?_, ?_, ?_, ?_⟩ <;>
    simp [threads3, threads5, get_or_init_counting, call_once_counting,
      threads3_stable, threads5_stable, List.replicate]

/-- Witness for C7 at `n = 3`. -/
theorem C7_exactly_once_witness :
    0 < 3 ∧
    ((threads3 3 { cell := none, initCount := 0 }).fst.initCount = 1 ∧
      (threads3 3 { cell := none, initCount := 0 }).snd
        = List.replicate 3 { data := "Singleton3 instance" } ∧
      (threads5 3 { completed := false, INSTANCE5 := none, initCount := 0 }).fst.initCount = 1 ∧
      (threads5 3 { completed := false, INSTANCE5 := none, initCount := 0 }).snd
        = List.replicate 3 (some { data := "Singleton5 instance" })) :=
  ⟨by decide, C7_exactly_once 3 (by decide)⟩

/-- C8: Variant E's destruction hook: when the `Singleton5` instance is
explicitly destroyed, the `Drop` implementation runs at that moment and
prints the line `"Singleton5 is being dropped"`. -/
theorem C8_drop_hook (st : St5) (s : Singleton5) (h : st.INSTANCE5 = some s) :
    (destroy5 st).snd = ["Singleton5 is being dropped"] := by
  simp [destroy5, h, Singleton5.drop, println]

/-- Witness for C8: destroying the freshly initialized instance emits the
line. -/
theorem C8_drop_hook_witness :
    (Singleton5.get_instance init5).fst.INSTANCE5
        = some { data := "Singleton5 instance" } ∧
    (destroy5 (Singleton5.get_instance init5).fst).snd
        = ["Singleton5 is being dropped"] :=
  ⟨rfl, C8_drop_hook (Singleton5.get_instance init5).fst
    { data := "Singleton5 instance" } rfl⟩

/-- C9: the internal partial operations of the lazy accessors are safe for
every call sequence: in Variant A's `get_instance`, `INSTANCE1` is `Some`
at the `INSTANCE1.as_mut().unwrap()` point for every prior state of the
global, and in Variant E's `get_instance`, `INSTANCE5` is non-null after
`ONCE.call_once` completes, from every state reachable through the public
operations. -/
theorem C9_partial_ops_safe :
    (∀ st : Option Singleton1, ((Singleton1.get_instance st).snd).isSome = true) ∧
    (∀ ops : List Op5,
      ((Singleton5.get_instance (run5 init5 ops).fst).snd).isSome = true) := by
  constructor
  · intro st
    cases st <;> simp [Singleton1.get_instance]
  · intro ops
    have hinv : inv5 (run5 init5 ops).fst :=
      run5_inv ops init5 (by intro h; simp [init5] at h)
    simpa [Singleton5.get_instance] using call_once5_isSome _ hinv

/-- C10: no sequence of Variant E's public operations (`get_instance`,
`set_data`, `get_data`) ever executes the `Drop` implementation: the runs
print nothing — in particular never the line `"Singleton5 is being
dropped"` — and once allocated the instance is never reclaimed (the pointer
stays non-null after every further sequence of public calls). -/
theorem C10_drop_never_runs (ops : List Op5) :
    (run5 init5 ops).snd = [] ∧
    "Singleton5 is being dropped" ∉ (run5 init5 ops).snd ∧
    ((run5 (Singleton5.get_instance init5).fst ops).fst.INSTANCE5).isSome = true := by
  refine ⟨run5_no_output ops init5, ?_, ?_⟩
  · rw [run5_no_output ops init5]
    simp
  · exact run5_keeps_isSome ops _ rfl
